import Mathlib

/-!
# Student registry service (`src/app.js`)

A shallow embedding of the three asynchronous routines of `src/app.js`:

* `createTable` and `initializeDatabase` (lines 43-88), the start-up protocol;
* the `POST /student` handler (lines 99-152);
* the `GET /students` handler (lines 155-163).

The connection pool (`mysql2`) is an external collaborator.  It is embedded as a record of
state-passing operations over an arbitrary store state `σ` (`Pool σ`), so that results that
quantify over pools hold for every behaviour of the store.  The table declared by the DDL
statement of `createTable` is embedded as the concrete pool `tablePool`.

Modelling conventions.

* A body field is `undefined` (key absent) or a string, as in the documented interface
  `{studentID: string, studentName: string, course: string}`.
* Every `await` is a point where other requests may run; `CreateTask.step` runs one handler from
  one `await` to the next, and `createStudent` is the same handler run without interruption.
* Strings are compared exactly; column length limits and collations of the database server
  are not modelled.  Timestamps are natural numbers read from the store's clock.
-/

namespace StudentApp

/-! ## Values exchanged with the store -/

/-- An error object thrown by the pool (`error` in the `catch` clauses). -/
structure Err where
  code : String
  message : String
  deriving DecidableEq, Repr

/-- A request-body field after `const { studentID, studentName, course } = req.body`:
`undefined` when the key is absent, otherwise the string that was sent. -/
inductive Field where
  | undefined
  | str (s : String)
  deriving DecidableEq, Repr

/-- JavaScript `!x` on a body field: true for `undefined` and for the empty string. -/
def Field.falsy : Field → Bool
  | .undefined => true
  | .str s => s == ""

/-- One row of `students`, with the column names of the DDL statement (lines 46-52). -/
structure Row where
  id : Nat
  student_id : String
  student_name : String
  course : String
  created_at : Nat
  deriving DecidableEq, Repr

/-- The statements the program sends through `pool.query`. -/
inductive Query where
  /-- Statement `CREATE TABLE IF NOT EXISTS students (...)` (line 54). -/
  | createTable
  /-- Statement `SELECT * FROM students WHERE student_id = ?` (line 111). -/
  | selectByStudentId (studentID : Field)
  /-- Statement `INSERT INTO students (student_id, student_name, course) VALUES (?, ?, ?)`
  (line 129). -/
  | insertStudent (studentID studentName course : Field)
  /-- Statement `SELECT * FROM students WHERE id = ?` (line 134). -/
  | selectById (id : Nat)
  /-- Statement `SELECT * FROM students` (line 157). -/
  | selectAll
  deriving DecidableEq, Repr

/-- What the program does to the outside world, in order. -/
inductive Event where
  /-- Call of `pool.getConnection()` and whether it resolved. -/
  | getConnection (ok : Bool)
  /-- Call of `connection.release()`. -/
  | release
  /-- Call of `pool.query(q, ...)` and whether it resolved. -/
  | query (q : Query) (ok : Bool)
  /-- Timer `setTimeout(resolve, ms)`. -/
  | wait (ms : Nat)
  deriving DecidableEq, Repr

/-- Lines written with `console.log` / `console.error`. -/
inductive Console where
  | log (msg : String)
  | error (msg : String)
  /-- Call `console.error(msg, error)`: the error object is printed on the server. -/
  | errorWith (msg : String) (error : Err)
  /-- The template string of line 80, with the value of `retries`. -/
  | retrying (attemptsLeft : Nat)
  deriving DecidableEq, Repr

/-- The pool as the program uses it: each operation takes the store state and returns either a
result or a thrown error, with the new store state. -/
structure Pool (σ : Type) where
  getConnection : σ → Except Err Unit × σ
  createTable : σ → Except Err Unit × σ
  selectByStudentId : Field → σ → Except Err (List Row) × σ
  insertStudent : Field → Field → Field → σ → Except Err Nat × σ
  selectById : Nat → σ → Except Err (List Row) × σ
  selectAll : σ → Except Err (List Row) × σ

/-- The process together with the store: store state, events so far, console so far. -/
structure Sys (σ : Type) where
  store : σ
  trace : List Event
  console : List Console

variable {σ : Type}

/-- Record an event. -/
def Sys.emit (sys : Sys σ) (e : Event) : Sys σ :=
  { sys with trace := sys.trace ++ [e] }

/-- Write a console line. -/
def Sys.print (sys : Sys σ) (c : Console) : Sys σ :=
  { sys with console := sys.console ++ [c] }

/-- Run one pool operation to completion (`await`), recording it. -/
def Sys.exec {α : Type} (sys : Sys σ) (op : σ → Except Err α × σ) (ev : Bool → Event) :
    Except Err α × Sys σ :=
  match op sys.store with
  | (.ok a, s) => (.ok a, { sys with store := s, trace := sys.trace ++ [ev true] })
  | (.error e, s) => (.error e, { sys with store := s, trace := sys.trace ++ [ev false] })

/-! ## Start-up: `createTable` and `initializeDatabase` -/

/-- Function `createTable` (lines 43-61): run the DDL statement; `true` when it resolved, `false`
(after printing the error) when it threw.  It never throws itself. -/
def createTable (pool : Pool σ) (sys : Sys σ) : Bool × Sys σ :=
  match sys.exec pool.createTable (.query .createTable) with
  | (.ok _, sys) => (true, sys.print (.log "Students table created or already exists"))
  | (.error e, sys) => (false, sys.print (.errorWith "Error creating table:" e))

/-- The `while (retries > 0)` loop of `initializeDatabase` (lines 66-85) followed by lines 86-87,
started with the given value of `retries`. -/
def initLoop (pool : Pool σ) : Nat → Sys σ → Bool × Sys σ
  | 0, sys =>
    (false, sys.print (.error "Failed to initialize database after multiple attempts"))
  | retries + 1, sys =>
    match sys.exec pool.getConnection .getConnection with
    | (.ok _, sys) =>
      let sys := sys.print (.log "Successfully connected to the database")
      let sys := sys.emit .release
      match createTable pool sys with
      | (true, sys) =>
        (true, sys.print (.log "Database initialization completed successfully"))
      | (false, sys) => (false, sys)
    | (.error _, sys) =>
      let sys := sys.print (.retrying (retries + 1))
      let sys := sys.emit (.wait 5000)
      initLoop pool retries sys

/-- Function `initializeDatabase` (lines 64-88): `let retries = 5` and the loop. -/
def initializeDatabase (pool : Pool σ) (sys : Sys σ) : Bool × Sys σ :=
  initLoop pool 5 sys

/-- The `.then` callback of lines 91-95: a failed initialization is only printed; the process
keeps running. -/
def startup (pool : Pool σ) (sys : Sys σ) : Sys σ :=
  match initializeDatabase pool sys with
  | (true, sys) => sys
  | (false, sys) => sys.print (.error "Failed to initialize database, some features may not work")

/-! ## HTTP handlers -/

/-- The body of a `POST /student` request. -/
structure ReqBody where
  studentID : Field
  studentName : Field
  course : Field
  deriving DecidableEq, Repr

/-- The `student` object of the 201 and 409 responses. -/
structure Student where
  studentID : String
  studentName : String
  course : String
  presentDate : Nat
  deriving DecidableEq, Repr

/-- JSON bodies the handlers send. -/
inductive Body where
  /-- Object `{ error }`. -/
  | error (error : String)
  /-- Object `{ message, student }`. -/
  | student (message : String) (student : Student)
  /-- A JSON array of rows, with the column names as keys. -/
  | rows (students : List Row)
  deriving DecidableEq, Repr

/-- An HTTP response: status code and JSON body. -/
structure Response where
  status : Nat
  body : Body
  deriving DecidableEq, Repr

/-- The `student` object built from a row (lines 119-124 and 141-146). -/
def Row.toStudent (r : Row) : Student :=
  { studentID := r.student_id, studentName := r.student_name, course := r.course,
    presentDate := r.created_at }

/-- Response of lines 105-107. -/
def missingFields : Response :=
  ⟨400, .error "Missing required fields: studentID, studentName, course"⟩

/-- Response of lines 117-125. -/
def conflict (r : Row) : Response :=
  ⟨409, .student "Student already exists" r.toStudent⟩

/-- Response of lines 139-147. -/
def created (r : Row) : Response :=
  ⟨201, .student "Student created successfully" r.toStudent⟩

/-- Response of lines 150 and 161. -/
def internalError : Response :=
  ⟨500, .error "Internal server error"⟩

/-- The `TypeError` raised by `newStudent[0].student_id` when `newStudent` is empty. -/
def typeError : Err :=
  ⟨"TypeError", "Cannot read properties of undefined (reading 'student_id')"⟩

/-- The `catch` clause of the create handler (lines 148-151). -/
def createFailed (e : Err) (sys : Sys σ) : Response × Sys σ :=
  (internalError, sys.print (.errorWith "Error creating student:" e))

/-- The `catch` clause of the list handler (lines 159-162). -/
def listFailed (e : Err) (sys : Sys σ) : Response × Sys σ :=
  (internalError, sys.print (.errorWith "Error fetching students:" e))

/-- Handler of `POST /student` (lines 99-152), run from start to end with no other request
in between. -/
def createStudent (pool : Pool σ) (body : ReqBody) (sys : Sys σ) : Response × Sys σ :=
  let studentID := body.studentID
  let studentName := body.studentName
  let course := body.course
  if studentID.falsy || studentName.falsy || course.falsy then
    (missingFields, sys)
  else
    match sys.exec (pool.selectByStudentId studentID) (.query (.selectByStudentId studentID)) with
    | (.error e, sys) => createFailed e sys
    | (.ok (r :: _), sys) => (conflict r, sys)
    | (.ok [], sys) =>
      match sys.exec (pool.insertStudent studentID studentName course)
          (.query (.insertStudent studentID studentName course)) with
      | (.error e, sys) => createFailed e sys
      | (.ok insertId, sys) =>
        match sys.exec (pool.selectById insertId) (.query (.selectById insertId)) with
        | (.error e, sys) => createFailed e sys
        | (.ok [], sys) => createFailed typeError sys
        | (.ok (r :: _), sys) => (created r, sys)

/-- Handler of `GET /students` (lines 155-163). -/
def listStudents (pool : Pool σ) (sys : Sys σ) : Response × Sys σ :=
  match sys.exec pool.selectAll (.query .selectAll) with
  | (.ok students, sys) => (⟨200, .rows students⟩, sys)
  | (.error e, sys) => listFailed e sys

/-- A request to one of the two data routes. -/
inductive Request where
  | create (body : ReqBody)
  | list
  deriving DecidableEq, Repr

/-- Dispatch of one request, run to completion. -/
def handle (pool : Pool σ) (req : Request) (sys : Sys σ) : Response × Sys σ :=
  match req with
  | .create body => createStudent pool body sys
  | .list => listStudents pool sys

/-- Requests handled one at a time, each running to completion before the next starts. -/
def handleAll (pool : Pool σ) : List Request → Sys σ → List Response × Sys σ
  | [], sys => ([], sys)
  | req :: rest, sys =>
    let (resp, sys) := handle pool req sys
    let (resps, sys) := handleAll pool rest sys
    (resp :: resps, sys)

/-! ## The create handler between two `await`s -/

/-- A `POST /student` handler in flight: where it is suspended and what it holds. -/
inductive CreateTask where
  /-- Not started yet. -/
  | start (body : ReqBody)
  /-- Suspended at line 111; the existence check has been answered. -/
  | checked (body : ReqBody) (existing : Except Err (List Row))
  /-- Suspended at line 129; the insert has been answered. -/
  | inserted (result : Except Err Nat)
  /-- Suspended at line 134; the re-read has been answered. -/
  | reread (newStudent : Except Err (List Row))
  /-- The response has been sent. -/
  | done (resp : Response)

/-- Run a handler from where it is suspended to its next `await` (the query it issues there is
answered by the store at once) or to its response. -/
def CreateTask.step (pool : Pool σ) : CreateTask → Sys σ → CreateTask × Sys σ
  | .start body, sys =>
    if body.studentID.falsy || body.studentName.falsy || body.course.falsy then
      (.done missingFields, sys)
    else
      match sys.exec (pool.selectByStudentId body.studentID)
          (.query (.selectByStudentId body.studentID)) with
      | (r, sys) => (.checked body r, sys)
  | .checked _ (.error e), sys =>
    match createFailed e sys with
    | (resp, sys) => (.done resp, sys)
  | .checked _ (.ok (r :: _)), sys => (.done (conflict r), sys)
  | .checked body (.ok []), sys =>
    match sys.exec (pool.insertStudent body.studentID body.studentName body.course)
        (.query (.insertStudent body.studentID body.studentName body.course)) with
    | (r, sys) => (.inserted r, sys)
  | .inserted (.error e), sys =>
    match createFailed e sys with
    | (resp, sys) => (.done resp, sys)
  | .inserted (.ok insertId), sys =>
    match sys.exec (pool.selectById insertId) (.query (.selectById insertId)) with
    | (r, sys) => (.reread r, sys)
  | .reread (.error e), sys =>
    match createFailed e sys with
    | (resp, sys) => (.done resp, sys)
  | .reread (.ok []), sys =>
    match createFailed typeError sys with
    | (resp, sys) => (.done resp, sys)
  | .reread (.ok (r :: _)), sys => (.done (created r), sys)
  | .done resp, sys => (.done resp, sys)

/-- Two create handlers in flight on the same store; `true` in the schedule lets the first one
take its next step, `false` the second. -/
def interleave (pool : Pool σ) :
    List Bool → CreateTask × CreateTask → Sys σ → (CreateTask × CreateTask) × Sys σ
  | [], tasks, sys => (tasks, sys)
  | true :: rest, (a, b), sys =>
    match a.step pool sys with
    | (a, sys) => interleave pool rest (a, b) sys
  | false :: rest, (a, b), sys =>
    match b.step pool sys with
    | (b, sys) => interleave pool rest (a, b) sys

/-! ## The `students` table -/

/-- The database behind the pool: the table `students` once created, the `AUTO_INCREMENT`
counter of `id`, and the clock read by `DEFAULT CURRENT_TIMESTAMP`. -/
structure DB where
  table : Option (List Row)
  nextId : Nat
  clock : Nat
  deriving DecidableEq, Repr

/-- Statement on a table that does not exist. -/
def noSuchTable : Err := ⟨"ER_NO_SUCH_TABLE", "Table 'studentdb.students' doesn't exist"⟩

/-- Violation of `student_id ... UNIQUE`. -/
def dupEntry : Err := ⟨"ER_DUP_ENTRY", "Duplicate entry for key 'students.student_id'"⟩

/-- Violation of `NOT NULL` (an `undefined` parameter is bound as `NULL`). -/
def badNull : Err := ⟨"ER_BAD_NULL_ERROR", "Column cannot be null"⟩

/-- The row an insert of `(s, n, c)` adds: `id` from the counter, `created_at` from the clock. -/
def DB.newRow (db : DB) (s n c : String) : Row :=
  ⟨db.nextId, s, n, c, db.clock⟩

/-- Insert of one row; the counter advances.  With `unique = false` the `UNIQUE` constraint on
`student_id` is not checked. -/
def DB.insert (unique : Bool) (studentID studentName course : Field) (db : DB) :
    Except Err Nat × DB :=
  match db.table with
  | none => (.error noSuchTable, db)
  | some rows =>
    match studentID, studentName, course with
    | .str s, .str n, .str c =>
      if unique && rows.any (fun r => r.student_id == s) then
        (.error dupEntry, db)
      else
        (.ok db.nextId,
          { db with table := some (rows ++ [db.newRow s n c]), nextId := db.nextId + 1 })
    | _, _, _ => (.error badNull, db)

/-- A `SELECT * FROM students WHERE ...` with the given row filter. -/
def DB.select (p : Row → Bool) (db : DB) : Except Err (List Row) × DB :=
  match db.table with
  | none => (.error noSuchTable, db)
  | some rows => (.ok (rows.filter p), db)

/-- The pool over a reachable database holding the table of the DDL statement.  `unique` says
whether the `UNIQUE` constraint of `student_id` is enforced (it is in the program's schema). -/
def tablePool (unique : Bool) : Pool DB where
  getConnection := fun db => (.ok (), db)
  createTable := fun db => (.ok (), { db with table := some (db.table.getD []) })
  selectByStudentId := fun a db =>
    match a with
    | .str s => db.select (fun r => r.student_id == s)
    | .undefined => db.select (fun _ => false)
  insertStudent := DB.insert unique
  selectById := fun i db => db.select (fun r => r.id == i)
  selectAll := fun db => db.select (fun _ => true)

/-- An operation that may also fail for outside reasons: it consumes the head of a schedule and
throws the error found there, if any, without reaching the store. -/
def faultyOp {α : Type} (op : σ → Except Err α × σ) :
    σ × List (Option Err) → Except Err α × (σ × List (Option Err))
  | (s, some e :: rest) => (.error e, (s, rest))
  | (s, none :: rest) => ((op s).1, ((op s).2, rest))
  | (s, []) => ((op s).1, ((op s).2, []))

/-- A pool whose operations may also fail for outside reasons (network, server), as told by a
schedule of faults carried next to the store state. -/
def Pool.faulty (pool : Pool σ) : Pool (σ × List (Option Err)) where
  getConnection := faultyOp pool.getConnection
  createTable := faultyOp pool.createTable
  selectByStudentId := fun a => faultyOp (pool.selectByStudentId a)
  insertStudent := fun a b c => faultyOp (pool.insertStudent a b c)
  selectById := fun i => faultyOp (pool.selectById i)
  selectAll := faultyOp pool.selectAll

/-- Counter of the primary key: every `id` in the table is below the `AUTO_INCREMENT` counter,
so the next generated `id` is new.  Every request keeps this (`handleAll_wf`). -/
def DB.WF (db : DB) : Prop :=
  ∀ rows, db.table = some rows → ∀ r ∈ rows, r.id < db.nextId

/-- No two rows of the table share a `student_id`. -/
def DB.UniqueIds (db : DB) : Prop :=
  ∀ rows, db.table = some rows → (rows.map Row.student_id).Nodup

/-! ## Measures on event traces -/

/-- Events of `k` failed rounds of the retry loop: a rejected `getConnection` followed by the
5000 ms timer, `k` times. -/
def failedRounds : Nat → List Event
  | 0 => []
  | k + 1 => .getConnection false :: .wait 5000 :: failedRounds k

/-- Number of `pool.getConnection()` calls in a trace. -/
def attempts : List Event → Nat
  | [] => 0
  | .getConnection _ :: rest => attempts rest + 1
  | _ :: rest => attempts rest

/-- Number of rejected `pool.getConnection()` calls in a trace. -/
def failedAttempts : List Event → Nat
  | [] => 0
  | .getConnection false :: rest => failedAttempts rest + 1
  | _ :: rest => failedAttempts rest

/-- Number of timers started in a trace. -/
def waits : List Event → Nat
  | [] => 0
  | .wait _ :: rest => waits rest + 1
  | _ :: rest => waits rest

/-- Total time waited in a trace, in milliseconds. -/
def waited : List Event → Nat
  | [] => 0
  | .wait ms :: rest => waited rest + ms
  | _ :: rest => waited rest

/-- Number of times the DDL statement of `createTable` was sent. -/
def tableCalls : List Event → Nat
  | [] => 0
  | .query .createTable _ :: rest => tableCalls rest + 1
  | _ :: rest => tableCalls rest

/-- A store that cannot be reached: every operation is rejected. -/
def downPool : Pool Unit where
  getConnection := fun s => (.error ⟨"ECONNREFUSED", "connect ECONNREFUSED"⟩, s)
  createTable := fun s => (.error ⟨"ECONNREFUSED", "connect ECONNREFUSED"⟩, s)
  selectByStudentId := fun _ s => (.error ⟨"ECONNREFUSED", "connect ECONNREFUSED"⟩, s)
  insertStudent := fun _ _ _ s => (.error ⟨"ECONNREFUSED", "connect ECONNREFUSED"⟩, s)
  selectById := fun _ s => (.error ⟨"ECONNREFUSED", "connect ECONNREFUSED"⟩, s)
  selectAll := fun s => (.error ⟨"ECONNREFUSED", "connect ECONNREFUSED"⟩, s)

/-- An operation with every thrown error replaced by `f` of it. -/
def mapErrOp {α : Type} (f : Err → Err) (op : σ → Except Err α × σ) : σ → Except Err α × σ :=
  fun s =>
    match op s with
    | (.ok a, s1) => (.ok a, s1)
    | (.error e, s1) => (.error (f e), s1)

/-- The same pool with every thrown error replaced by `f` of it: resolved results and store
states are those of `pool`. -/
def Pool.mapErr (f : Err → Err) (pool : Pool σ) : Pool σ where
  getConnection := mapErrOp f pool.getConnection
  createTable := mapErrOp f pool.createTable
  selectByStudentId := fun a => mapErrOp f (pool.selectByStudentId a)
  insertStudent := fun a b c => mapErrOp f (pool.insertStudent a b c)
  selectById := fun i => mapErrOp f (pool.selectById i)
  selectAll := mapErrOp f pool.selectAll

/-- The validation of line 104 lets the body through. -/
def ReqBody.valid (body : ReqBody) : Bool :=
  !(body.studentID.falsy || body.studentName.falsy || body.course.falsy)

/-! ## Basic facts about `Sys.exec` -/

section Lemmas

variable {α : Type}

theorem exec_ok (sys : Sys σ) (op : σ → Except Err α × σ) (ev : Bool → Event) (a : α) (s : σ)
    (h : op sys.store = (.ok a, s)) :
    sys.exec op ev = (.ok a, ⟨s, sys.trace ++ [ev true], sys.console⟩) := by
  simp [Sys.exec, h]

theorem exec_error (sys : Sys σ) (op : σ → Except Err α × σ) (ev : Bool → Event) (e : Err)
    (s : σ) (h : op sys.store = (.error e, s)) :
    sys.exec op ev = (.error e, ⟨s, sys.trace ++ [ev false], sys.console⟩) := by
  simp [Sys.exec, h]

/-- Every pool operation either resolves or throws. -/
theorem op_cases (op : σ → Except Err α × σ) (s : σ) :
    (∃ a s1, op s = (.ok a, s1)) ∨ (∃ e s1, op s = (.error e, s1)) := by
  rcases h : op s with ⟨r, s1⟩
  cases r with
  | ok a => exact Or.inl ⟨a, s1, rfl⟩
  | error e => exact Or.inr ⟨e, s1, rfl⟩

theorem createTable_trace (pool : Pool σ) (sys : Sys σ) :
    (createTable pool sys).2.trace =
      sys.trace ++ [.query .createTable (createTable pool sys).1] := by
  rcases op_cases pool.createTable sys.store with ⟨a, s1, h⟩ | ⟨e, s1, h⟩
  · simp [createTable, exec_ok _ _ _ _ _ h, Sys.print]
  · simp [createTable, exec_error _ _ _ _ _ h, Sys.print]

/-- Lines 73-78: the events added after a connection was obtained are the one DDL statement,
and its outcome is the result. -/
theorem initLoop_finish_trace (pool : Pool σ) (sys : Sys σ) :
    (match createTable pool sys with
      | (true, sys) =>
        (true, sys.print (.log "Database initialization completed successfully"))
      | (false, sys) => (false, sys)).2.trace =
    sys.trace ++ [.query .createTable
      (match createTable pool sys with
        | (true, sys) =>
          (true, sys.print (.log "Database initialization completed successfully"))
        | (false, sys) => (false, sys)).1] := by
  have hct := createTable_trace pool sys
  rcases hb : createTable pool sys with ⟨b, sys2⟩
  rw [hb] at hct
  cases b <;> simpa [Sys.print] using hct

/-- Shape of every run of the retry loop: `k` failed rounds, then either nothing more (all
`retries` attempts failed, result `false`) or one accepted connection, its release, and the one
DDL statement whose outcome is the result. -/
theorem initLoop_trace (pool : Pool σ) (retries : Nat) (sys : Sys σ) :
    ∃ k tail, k ≤ retries ∧
      (initLoop pool retries sys).2.trace = sys.trace ++ (failedRounds k ++ tail) ∧
      ((k = retries ∧ tail = [] ∧ (initLoop pool retries sys).1 = false) ∨
       (k < retries ∧
        tail = [.getConnection true, .release,
                .query .createTable (initLoop pool retries sys).1])) := by
  induction retries generalizing sys with
  | zero =>
    exact ⟨0, [], le_refl 0, by simp [initLoop, failedRounds, Sys.print], Or.inl ⟨rfl, rfl, rfl⟩⟩
  | succ r ih =>
    rcases op_cases pool.getConnection sys.store with ⟨a, s1, h⟩ | ⟨e, s1, h⟩
    · refine ⟨0, _, Nat.zero_le _, ?_, Or.inr ⟨Nat.succ_pos r, rfl⟩⟩
      have hfin := initLoop_finish_trace pool
        ((Sys.mk s1 (sys.trace ++ [.getConnection true]) sys.console).print
          (.log "Successfully connected to the database") |>.emit .release)
      simp only [initLoop, exec_ok _ _ _ _ _ h, failedRounds, List.nil_append]
      rw [hfin]
      simp [Sys.print, Sys.emit]
    · obtain ⟨k, tail, hk, htr, hres⟩ := ih
        ((Sys.mk s1 (sys.trace ++ [.getConnection false]) sys.console).print
          (.retrying (r + 1)) |>.emit (.wait 5000))
      have hstep : initLoop pool (r + 1) sys = initLoop pool r
          ((Sys.mk s1 (sys.trace ++ [.getConnection false]) sys.console).print
            (.retrying (r + 1)) |>.emit (.wait 5000)) := by
        simp [initLoop, exec_error _ _ _ _ _ h]
      refine ⟨k + 1, tail, Nat.succ_le_succ hk, ?_, ?_⟩
      · rw [hstep, htr]
        simp [failedRounds, Sys.print, Sys.emit]
      · rw [hstep]
        rcases hres with ⟨h1, h2, h3⟩ | ⟨h1, h2⟩
        · exact Or.inl ⟨by omega, h2, h3⟩
        · exact Or.inr ⟨by omega, h2⟩

theorem attempts_failedRounds (k : Nat) (tail : List Event) :
    attempts (failedRounds k ++ tail) = k + attempts tail := by
  induction k with
  | zero => simp [failedRounds]
  | succ k ih => simp [failedRounds, attempts, ih]; omega

theorem failedAttempts_failedRounds (k : Nat) (tail : List Event) :
    failedAttempts (failedRounds k ++ tail) = k + failedAttempts tail := by
  induction k with
  | zero => simp [failedRounds]
  | succ k ih => simp [failedRounds, failedAttempts, ih]; omega

theorem waits_failedRounds (k : Nat) (tail : List Event) :
    waits (failedRounds k ++ tail) = k + waits tail := by
  induction k with
  | zero => simp [failedRounds]
  | succ k ih => simp [failedRounds, waits, ih]; omega

theorem waited_failedRounds (k : Nat) (tail : List Event) :
    waited (failedRounds k ++ tail) = 5000 * k + waited tail := by
  induction k with
  | zero => simp [failedRounds]
  | succ k ih => simp [failedRounds, waited, ih]; omega

theorem tableCalls_failedRounds (k : Nat) (tail : List Event) :
    tableCalls (failedRounds k ++ tail) = tableCalls tail := by
  induction k with
  | zero => simp [failedRounds]
  | succ k ih => simp [failedRounds, tableCalls, ih]

theorem mem_failedRounds (k : Nat) (e : Event) (h : e ∈ failedRounds k) :
    e = .getConnection false ∨ e = .wait 5000 := by
  induction k with
  | zero => simp [failedRounds] at h
  | succ k ih =>
    simp only [failedRounds, List.mem_cons] at h
    rcases h with h | h | h
    · exact Or.inl h
    · exact Or.inr h
    · exact ih h

/-- When no connection can be obtained the loop runs `retries` failed rounds and gives up. -/
theorem initLoop_down (pool : Pool σ)
    (hdown : ∀ s, ∃ e s1, pool.getConnection s = (.error e, s1)) (retries : Nat) (sys : Sys σ) :
    (initLoop pool retries sys).1 = false ∧
      (initLoop pool retries sys).2.trace = sys.trace ++ failedRounds retries := by
  induction retries generalizing sys with
  | zero => simp [initLoop, failedRounds, Sys.print]
  | succ r ih =>
    obtain ⟨e, s1, h⟩ := hdown sys.store
    have hstep : initLoop pool (r + 1) sys = initLoop pool r
        ((Sys.mk s1 (sys.trace ++ [.getConnection false]) sys.console).print
          (.retrying (r + 1)) |>.emit (.wait 5000)) := by
      simp [initLoop, exec_error _ _ _ _ _ h]
    rw [hstep]
    refine ⟨(ih _).1, ?_⟩
    rw [(ih _).2]
    simp [failedRounds, Sys.print, Sys.emit]

/-! ## The create handler, outcome by outcome -/

theorem falsy_str (s : String) (h : s ≠ "") : (Field.str s).falsy = false := by
  simp [Field.falsy, h]

theorem valid_str (s n c : String) (hs : s ≠ "") (hn : n ≠ "") (hc : c ≠ "") :
    (ReqBody.mk (.str s) (.str n) (.str c)).valid = true := by
  simp [ReqBody.valid, falsy_str, hs, hn, hc]

theorem createStudent_invalid (pool : Pool σ) (body : ReqBody) (sys : Sys σ)
    (hv : body.valid = false) : createStudent pool body sys = (missingFields, sys) := by
  have h : (body.studentID.falsy || body.studentName.falsy || body.course.falsy) = true := by
    unfold ReqBody.valid at hv
    generalize (body.studentID.falsy || body.studentName.falsy || body.course.falsy) = b at hv
    cases b <;> simp at hv ⊢
  simp [createStudent, h]

theorem createStudent_check_error (pool : Pool σ) (body : ReqBody) (sys : Sys σ)
    (hv : body.valid = true) (e : Err) (s1 : σ)
    (h1 : pool.selectByStudentId body.studentID sys.store = (.error e, s1)) :
    createStudent pool body sys =
      (internalError,
        ⟨s1, sys.trace ++ [.query (.selectByStudentId body.studentID) false],
          sys.console ++ [.errorWith "Error creating student:" e]⟩) := by
  have h : (body.studentID.falsy || body.studentName.falsy || body.course.falsy) = false := by
    unfold ReqBody.valid at hv
    generalize (body.studentID.falsy || body.studentName.falsy || body.course.falsy) = b at hv
    cases b <;> simp at hv ⊢
  simp [createStudent, h, Sys.exec, h1, createFailed, Sys.print]

theorem createStudent_conflict (pool : Pool σ) (body : ReqBody) (sys : Sys σ)
    (hv : body.valid = true) (r : Row) (rs : List Row) (s1 : σ)
    (h1 : pool.selectByStudentId body.studentID sys.store = (.ok (r :: rs), s1)) :
    createStudent pool body sys =
      (conflict r,
        ⟨s1, sys.trace ++ [.query (.selectByStudentId body.studentID) true], sys.console⟩) := by
  have h : (body.studentID.falsy || body.studentName.falsy || body.course.falsy) = false := by
    unfold ReqBody.valid at hv
    generalize (body.studentID.falsy || body.studentName.falsy || body.course.falsy) = b at hv
    cases b <;> simp at hv ⊢
  simp [createStudent, h, Sys.exec, h1]

theorem createStudent_insert_error (pool : Pool σ) (body : ReqBody) (sys : Sys σ)
    (hv : body.valid = true) (e : Err) (s1 s2 : σ)
    (h1 : pool.selectByStudentId body.studentID sys.store = (.ok [], s1))
    (h2 : pool.insertStudent body.studentID body.studentName body.course s1 = (.error e, s2)) :
    createStudent pool body sys =
      (internalError,
        ⟨s2, sys.trace ++ [.query (.selectByStudentId body.studentID) true,
            .query (.insertStudent body.studentID body.studentName body.course) false],
          sys.console ++ [.errorWith "Error creating student:" e]⟩) := by
  have h : (body.studentID.falsy || body.studentName.falsy || body.course.falsy) = false := by
    unfold ReqBody.valid at hv
    generalize (body.studentID.falsy || body.studentName.falsy || body.course.falsy) = b at hv
    cases b <;> simp at hv ⊢
  simp [createStudent, h, Sys.exec, h1, h2, createFailed, Sys.print]

theorem createStudent_reread_error (pool : Pool σ) (body : ReqBody) (sys : Sys σ)
    (hv : body.valid = true) (e : Err) (insertId : Nat) (s1 s2 s3 : σ)
    (h1 : pool.selectByStudentId body.studentID sys.store = (.ok [], s1))
    (h2 : pool.insertStudent body.studentID body.studentName body.course s1 =
      (.ok insertId, s2))
    (h3 : pool.selectById insertId s2 = (.error e, s3)) :
    createStudent pool body sys =
      (internalError,
        ⟨s3, sys.trace ++ [.query (.selectByStudentId body.studentID) true,
            .query (.insertStudent body.studentID body.studentName body.course) true,
            .query (.selectById insertId) false],
          sys.console ++ [.errorWith "Error creating student:" e]⟩) := by
  have h : (body.studentID.falsy || body.studentName.falsy || body.course.falsy) = false := by
    unfold ReqBody.valid at hv
    generalize (body.studentID.falsy || body.studentName.falsy || body.course.falsy) = b at hv
    cases b <;> simp at hv ⊢
  simp [createStudent, h, Sys.exec, h1, h2, h3, createFailed, Sys.print]

theorem createStudent_reread_empty (pool : Pool σ) (body : ReqBody) (sys : Sys σ)
    (hv : body.valid = true) (insertId : Nat) (s1 s2 s3 : σ)
    (h1 : pool.selectByStudentId body.studentID sys.store = (.ok [], s1))
    (h2 : pool.insertStudent body.studentID body.studentName body.course s1 =
      (.ok insertId, s2))
    (h3 : pool.selectById insertId s2 = (.ok [], s3)) :
    createStudent pool body sys =
      (internalError,
        ⟨s3, sys.trace ++ [.query (.selectByStudentId body.studentID) true,
            .query (.insertStudent body.studentID body.studentName body.course) true,
            .query (.selectById insertId) true],
          sys.console ++ [.errorWith "Error creating student:" typeError]⟩) := by
  have h : (body.studentID.falsy || body.studentName.falsy || body.course.falsy) = false := by
    unfold ReqBody.valid at hv
    generalize (body.studentID.falsy || body.studentName.falsy || body.course.falsy) = b at hv
    cases b <;> simp at hv ⊢
  simp [createStudent, h, Sys.exec, h1, h2, h3, createFailed, Sys.print]

theorem createStudent_created (pool : Pool σ) (body : ReqBody) (sys : Sys σ)
    (hv : body.valid = true) (insertId : Nat) (r : Row) (rs : List Row) (s1 s2 s3 : σ)
    (h1 : pool.selectByStudentId body.studentID sys.store = (.ok [], s1))
    (h2 : pool.insertStudent body.studentID body.studentName body.course s1 =
      (.ok insertId, s2))
    (h3 : pool.selectById insertId s2 = (.ok (r :: rs), s3)) :
    createStudent pool body sys =
      (created r,
        ⟨s3, sys.trace ++ [.query (.selectByStudentId body.studentID) true,
            .query (.insertStudent body.studentID body.studentName body.course) true,
            .query (.selectById insertId) true],
          sys.console⟩) := by
  have h : (body.studentID.falsy || body.studentName.falsy || body.course.falsy) = false := by
    unfold ReqBody.valid at hv
    generalize (body.studentID.falsy || body.studentName.falsy || body.course.falsy) = b at hv
    cases b <;> simp at hv ⊢
  simp [createStudent, h, Sys.exec, h1, h2, h3]

theorem listStudents_ok (pool : Pool σ) (sys : Sys σ) (students : List Row) (s1 : σ)
    (h : pool.selectAll sys.store = (.ok students, s1)) :
    listStudents pool sys =
      (⟨200, .rows students⟩, ⟨s1, sys.trace ++ [.query .selectAll true], sys.console⟩) := by
  simp [listStudents, exec_ok _ _ _ _ _ h]

theorem listStudents_error (pool : Pool σ) (sys : Sys σ) (e : Err) (s1 : σ)
    (h : pool.selectAll sys.store = (.error e, s1)) :
    listStudents pool sys =
      (internalError,
        ⟨s1, sys.trace ++ [.query .selectAll false],
          sys.console ++ [.errorWith "Error fetching students:" e]⟩) := by
  simp [listStudents, exec_error _ _ _ _ _ h, listFailed, Sys.print]

/-! ## The table behind the pool -/

theorem table_check (unique : Bool) (db : DB) (rows : List Row) (s : String)
    (ht : db.table = some rows) :
    (tablePool unique).selectByStudentId (.str s) db =
      (.ok (rows.filter (fun r => r.student_id == s)), db) := by
  simp [tablePool, DB.select, ht]

theorem table_reread (unique : Bool) (db : DB) (rows : List Row) (i : Nat)
    (ht : db.table = some rows) :
    (tablePool unique).selectById i db = (.ok (rows.filter (fun r => r.id == i)), db) := by
  simp [tablePool, DB.select, ht]

theorem table_all (unique : Bool) (db : DB) (rows : List Row) (ht : db.table = some rows) :
    (tablePool unique).selectAll db = (.ok rows, db) := by
  simp [tablePool, DB.select, ht]

theorem filter_fresh (rows : List Row) (s : String) (hf : ∀ r ∈ rows, r.student_id ≠ s) :
    rows.filter (fun r => r.student_id == s) = [] := by
  simp only [List.filter_eq_nil_iff]
  intro r hr
  simpa using hf r hr

theorem filter_below (rows : List Row) (i : Nat) (hlt : ∀ r ∈ rows, r.id < i) :
    rows.filter (fun r => r.id == i) = [] := by
  simp only [List.filter_eq_nil_iff]
  intro r hr
  have := hlt r hr
  simp
  omega

theorem table_insert_fresh (unique : Bool) (db : DB) (rows : List Row) (s n c : String)
    (ht : db.table = some rows) (hf : ∀ r ∈ rows, r.student_id ≠ s) :
    (tablePool unique).insertStudent (.str s) (.str n) (.str c) db =
      (.ok db.nextId, ⟨some (rows ++ [db.newRow s n c]), db.nextId + 1, db.clock⟩) := by
  have hany : rows.any (fun r => r.student_id == s) = false := by
    simp only [List.any_eq_false]
    intro r hr
    simpa using hf r hr
  simp [tablePool, DB.insert, ht, hany]

theorem table_insert_dup (db : DB) (rows : List Row) (s n c : String) (r : Row)
    (ht : db.table = some rows) (hr : r ∈ rows) (hs : r.student_id = s) :
    (tablePool true).insertStudent (.str s) (.str n) (.str c) db = (.error dupEntry, db) := by
  have hany : rows.any (fun r => r.student_id == s) = true := by
    simp only [List.any_eq_true]
    exact ⟨r, hr, by simp [hs]⟩
  simp [tablePool, DB.insert, ht, hany]

/-- A valid request for an identifier the table does not hold: the row is inserted, read back,
and returned with status 201. -/
theorem create_fresh (unique : Bool) (db : DB) (rows : List Row) (tr : List Event)
    (con : List Console) (s n c : String) (hs : s ≠ "") (hn : n ≠ "") (hc : c ≠ "")
    (ht : db.table = some rows) (hwf : db.WF) (hf : ∀ r ∈ rows, r.student_id ≠ s) :
    createStudent (tablePool unique) ⟨.str s, .str n, .str c⟩ ⟨db, tr, con⟩ =
      (created (db.newRow s n c),
        ⟨⟨some (rows ++ [db.newRow s n c]), db.nextId + 1, db.clock⟩,
          tr ++ [.query (.selectByStudentId (.str s)) true,
            .query (.insertStudent (.str s) (.str n) (.str c)) true,
            .query (.selectById db.nextId) true], con⟩) := by
  have h1 := table_check unique db rows s ht
  rw [filter_fresh rows s hf] at h1
  have h2 := table_insert_fresh unique db rows s n c ht hf
  have h3 := table_reread unique ⟨some (rows ++ [db.newRow s n c]), db.nextId + 1, db.clock⟩
    (rows ++ [db.newRow s n c]) db.nextId rfl
  rw [List.filter_append, filter_below rows db.nextId (hwf rows ht)] at h3
  have h3' : (tablePool unique).selectById db.nextId
      ⟨some (rows ++ [db.newRow s n c]), db.nextId + 1, db.clock⟩ =
      (.ok (db.newRow s n c :: []),
        ⟨some (rows ++ [db.newRow s n c]), db.nextId + 1, db.clock⟩) := by
    rw [h3]; simp [DB.newRow]
  exact createStudent_created (tablePool unique) ⟨.str s, .str n, .str c⟩ ⟨db, tr, con⟩
    (valid_str s n c hs hn hc) db.nextId _ _ _ _ _ h1 h2 h3'

/-- A valid request for an identifier the table holds: the first matching row is returned with
status 409 and nothing is written. -/
theorem create_existing (unique : Bool) (db : DB) (rows : List Row) (tr : List Event)
    (con : List Console) (s n c : String) (hs : s ≠ "") (hn : n ≠ "") (hc : c ≠ "")
    (ht : db.table = some rows) (r : Row) (rs : List Row)
    (hr : rows.filter (fun r => r.student_id == s) = r :: rs) :
    createStudent (tablePool unique) ⟨.str s, .str n, .str c⟩ ⟨db, tr, con⟩ =
      (conflict r, ⟨db, tr ++ [.query (.selectByStudentId (.str s)) true], con⟩) := by
  have h1 := table_check unique db rows s ht
  rw [hr] at h1
  exact createStudent_conflict (tablePool unique) ⟨.str s, .str n, .str c⟩ ⟨db, tr, con⟩
    (valid_str s n c hs hn hc) r rs db h1

/-! ## Relabelled errors -/

theorem mapErrOp_ok {α : Type} (f : Err → Err) (op : σ → Except Err α × σ) (s s1 : σ) (a : α)
    (h : op s = (.ok a, s1)) : mapErrOp f op s = (.ok a, s1) := by
  simp [mapErrOp, h]

theorem mapErrOp_error {α : Type} (f : Err → Err) (op : σ → Except Err α × σ) (s s1 : σ)
    (e : Err) (h : op s = (.error e, s1)) : mapErrOp f op s = (.error (f e), s1) := by
  simp [mapErrOp, h]

/-- Relabelling the errors a pool throws changes nothing in a run of the create handler but the
console: same response, same store, same events. -/
theorem createStudent_mapErr (pool : Pool σ) (f : Err → Err) (body : ReqBody) (sys : Sys σ) :
    (createStudent (pool.mapErr f) body sys).1 = (createStudent pool body sys).1 ∧
    (createStudent (pool.mapErr f) body sys).2.store = (createStudent pool body sys).2.store ∧
    (createStudent (pool.mapErr f) body sys).2.trace = (createStudent pool body sys).2.trace := by
  cases hv : body.valid with
  | false => simp [createStudent_invalid _ _ _ hv]
  | true =>
    rcases op_cases (pool.selectByStudentId body.studentID) sys.store with
      ⟨ex, s1, h1⟩ | ⟨e, s1, h1⟩
    · have h1' : (pool.mapErr f).selectByStudentId body.studentID sys.store = (.ok ex, s1) :=
        mapErrOp_ok f _ _ _ _ h1
      cases ex with
      | cons r rs =>
        simp [createStudent_conflict _ _ _ hv r rs s1 h1,
          createStudent_conflict _ _ _ hv r rs s1 h1']
      | nil =>
        rcases op_cases (pool.insertStudent body.studentID body.studentName body.course) s1
          with ⟨i, s2, h2⟩ | ⟨e, s2, h2⟩
        · have h2' : (pool.mapErr f).insertStudent body.studentID body.studentName body.course
              s1 = (.ok i, s2) := mapErrOp_ok f _ _ _ _ h2
          rcases op_cases (pool.selectById i) s2 with ⟨nw, s3, h3⟩ | ⟨e, s3, h3⟩
          · have h3' : (pool.mapErr f).selectById i s2 = (.ok nw, s3) :=
              mapErrOp_ok f _ _ _ _ h3
            cases nw with
            | nil =>
              simp [createStudent_reread_empty _ _ _ hv i s1 s2 s3 h1 h2 h3,
                createStudent_reread_empty _ _ _ hv i s1 s2 s3 h1' h2' h3']
            | cons r rs =>
              simp [createStudent_created _ _ _ hv i r rs s1 s2 s3 h1 h2 h3,
                createStudent_created _ _ _ hv i r rs s1 s2 s3 h1' h2' h3']
          · have h3' : (pool.mapErr f).selectById i s2 = (.error (f e), s3) :=
              mapErrOp_error f _ _ _ _ h3
            simp [createStudent_reread_error _ _ _ hv e i s1 s2 s3 h1 h2 h3,
              createStudent_reread_error _ _ _ hv (f e) i s1 s2 s3 h1' h2' h3']
        · have h2' : (pool.mapErr f).insertStudent body.studentID body.studentName body.course
              s1 = (.error (f e), s2) := mapErrOp_error f _ _ _ _ h2
          simp [createStudent_insert_error _ _ _ hv e s1 s2 h1 h2,
            createStudent_insert_error _ _ _ hv (f e) s1 s2 h1' h2']
    · have h1' : (pool.mapErr f).selectByStudentId body.studentID sys.store =
          (.error (f e), s1) := mapErrOp_error f _ _ _ _ h1
      simp [createStudent_check_error _ _ _ hv e s1 h1,
        createStudent_check_error _ _ _ hv (f e) s1 h1']

/-- Relabelling the errors a pool throws changes nothing in a run of the list handler but the
console. -/
theorem listStudents_mapErr (pool : Pool σ) (f : Err → Err) (sys : Sys σ) :
    (listStudents (pool.mapErr f) sys).1 = (listStudents pool sys).1 ∧
    (listStudents (pool.mapErr f) sys).2.store = (listStudents pool sys).2.store ∧
    (listStudents (pool.mapErr f) sys).2.trace = (listStudents pool sys).2.trace := by
  rcases op_cases pool.selectAll sys.store with ⟨rows, s1, h⟩ | ⟨e, s1, h⟩
  · have h' : (pool.mapErr f).selectAll sys.store = (.ok rows, s1) := mapErrOp_ok f _ _ _ _ h
    simp [listStudents_ok _ _ _ _ h, listStudents_ok _ _ _ _ h']
  · have h' : (pool.mapErr f).selectAll sys.store = (.error (f e), s1) :=
      mapErrOp_error f _ _ _ _ h
    simp [listStudents_error _ _ _ _ h, listStudents_error _ _ _ _ h']

/-- A run of the create handler in which some query threw is answered with `internalError`. -/
theorem createStudent_failed_query (pool : Pool σ) (body : ReqBody) (sys : Sys σ)
    (ev : List Event) (q : Query)
    (htr : (createStudent pool body sys).2.trace = sys.trace ++ ev)
    (hq : Event.query q false ∈ ev) :
    (createStudent pool body sys).1 = internalError := by
  cases hv : body.valid with
  | false =>
    rw [createStudent_invalid _ _ _ hv] at htr
    have : ev = [] := by simpa using htr
    simp [this] at hq
  | true =>
    rcases op_cases (pool.selectByStudentId body.studentID) sys.store with
      ⟨ex, s1, h1⟩ | ⟨e, s1, h1⟩
    · cases ex with
      | cons r rs =>
        rw [createStudent_conflict _ _ _ hv r rs s1 h1] at htr
        have : ev = [.query (.selectByStudentId body.studentID) true] := by simpa using htr.symm
        simp [this] at hq
      | nil =>
        rcases op_cases (pool.insertStudent body.studentID body.studentName body.course) s1
          with ⟨i, s2, h2⟩ | ⟨e, s2, h2⟩
        · rcases op_cases (pool.selectById i) s2 with ⟨nw, s3, h3⟩ | ⟨e, s3, h3⟩
          · cases nw with
            | nil => rw [createStudent_reread_empty _ _ _ hv i s1 s2 s3 h1 h2 h3]
            | cons r rs =>
              rw [createStudent_created _ _ _ hv i r rs s1 s2 s3 h1 h2 h3] at htr
              have : ev = [.query (.selectByStudentId body.studentID) true,
                  .query (.insertStudent body.studentID body.studentName body.course) true,
                  .query (.selectById i) true] := by simpa using htr.symm
              simp [this] at hq
          · rw [createStudent_reread_error _ _ _ hv e i s1 s2 s3 h1 h2 h3]
        · rw [createStudent_insert_error _ _ _ hv e s1 s2 h1 h2]
    · rw [createStudent_check_error _ _ _ hv e s1 h1]

/-- A run of the list handler in which the query threw is answered with `internalError`. -/
theorem listStudents_failed_query (pool : Pool σ) (sys : Sys σ) (ev : List Event) (q : Query)
    (htr : (listStudents pool sys).2.trace = sys.trace ++ ev)
    (hq : Event.query q false ∈ ev) :
    (listStudents pool sys).1 = internalError := by
  rcases op_cases pool.selectAll sys.store with ⟨rows, s1, h⟩ | ⟨e, s1, h⟩
  · rw [listStudents_ok _ _ _ _ h] at htr
    have : ev = [.query .selectAll true] := by simpa using htr.symm
    simp [this] at hq
  · rw [listStudents_error _ _ _ _ h]

/-! ## Handlers in flight -/

/-- Four uninterrupted steps of a handler in flight are the handler `createStudent`. -/
theorem interleave_alone (pool : Pool σ) (body : ReqBody) (other : CreateTask) (sys : Sys σ) :
    interleave pool [true, true, true, true] (.start body, other) sys =
      ((.done (createStudent pool body sys).1, other), (createStudent pool body sys).2) := by
  cases hv : body.valid with
  | false =>
    have h : (body.studentID.falsy || body.studentName.falsy || body.course.falsy) = true := by
      unfold ReqBody.valid at hv
      generalize (body.studentID.falsy || body.studentName.falsy || body.course.falsy) = b at hv
      cases b <;> simp at hv ⊢
    simp [createStudent_invalid _ _ _ hv, interleave, CreateTask.step, h]
  | true =>
    have h : (body.studentID.falsy || body.studentName.falsy || body.course.falsy) = false := by
      unfold ReqBody.valid at hv
      generalize (body.studentID.falsy || body.studentName.falsy || body.course.falsy) = b at hv
      cases b <;> simp at hv ⊢
    rcases op_cases (pool.selectByStudentId body.studentID) sys.store with
      ⟨ex, s1, h1⟩ | ⟨e, s1, h1⟩
    · cases ex with
      | cons r rs =>
        simp [createStudent_conflict _ _ _ hv r rs s1 h1, interleave, CreateTask.step, h,
          Sys.exec, h1]
      | nil =>
        rcases op_cases (pool.insertStudent body.studentID body.studentName body.course) s1
          with ⟨i, s2, h2⟩ | ⟨e, s2, h2⟩
        · rcases op_cases (pool.selectById i) s2 with ⟨nw, s3, h3⟩ | ⟨e, s3, h3⟩
          · cases nw with
            | nil =>
              simp [createStudent_reread_empty _ _ _ hv i s1 s2 s3 h1 h2 h3, interleave,
                CreateTask.step, h, Sys.exec, h1, h2, h3, createFailed, Sys.print]
            | cons r rs =>
              simp [createStudent_created _ _ _ hv i r rs s1 s2 s3 h1 h2 h3, interleave,
                CreateTask.step, h, Sys.exec, h1, h2, h3]
          · simp [createStudent_reread_error _ _ _ hv e i s1 s2 s3 h1 h2 h3, interleave,
              CreateTask.step, h, Sys.exec, h1, h2, h3, createFailed, Sys.print]
        · simp [createStudent_insert_error _ _ _ hv e s1 s2 h1 h2, interleave,
            CreateTask.step, h, Sys.exec, h1, h2, createFailed, Sys.print]
    · simp [createStudent_check_error _ _ _ hv e s1 h1, interleave, CreateTask.step, h,
        Sys.exec, h1, createFailed, Sys.print]

/-- Two valid requests for the same new identifier, both passing the existence check before
either inserts: the first insert succeeds, the second is rejected by the `UNIQUE` constraint. -/
theorem interleave_race (db : DB) (rows : List Row) (tr : List Event) (con : List Console)
    (s n1 c1 n2 c2 : String)
    (hs : s ≠ "") (hn1 : n1 ≠ "") (hc1 : c1 ≠ "") (hn2 : n2 ≠ "") (hc2 : c2 ≠ "")
    (ht : db.table = some rows) (hwf : db.WF) (hf : ∀ r ∈ rows, r.student_id ≠ s) :
    interleave (tablePool true) [true, false, true, false, true, true, false]
        (.start ⟨.str s, .str n1, .str c1⟩, .start ⟨.str s, .str n2, .str c2⟩) ⟨db, tr, con⟩ =
      ((.done (created (db.newRow s n1 c1)), .done internalError),
        ⟨⟨some (rows ++ [db.newRow s n1 c1]), db.nextId + 1, db.clock⟩,
          tr ++ [.query (.selectByStudentId (.str s)) true,
            .query (.selectByStudentId (.str s)) true,
            .query (.insertStudent (.str s) (.str n1) (.str c1)) true,
            .query (.insertStudent (.str s) (.str n2) (.str c2)) false,
            .query (.selectById db.nextId) true],
          con ++ [.errorWith "Error creating student:" dupEntry]⟩) := by
  have h1 := table_check true db rows s ht
  rw [filter_fresh rows s hf] at h1
  have h2 := table_insert_fresh true db rows s n1 c1 ht hf
  have h3 := table_insert_dup ⟨some (rows ++ [db.newRow s n1 c1]), db.nextId + 1, db.clock⟩
    (rows ++ [db.newRow s n1 c1]) s n2 c2 (db.newRow s n1 c1) rfl (by simp) rfl
  have h4 := table_reread true ⟨some (rows ++ [db.newRow s n1 c1]), db.nextId + 1, db.clock⟩
    (rows ++ [db.newRow s n1 c1]) db.nextId rfl
  rw [List.filter_append, filter_below rows db.nextId (hwf rows ht)] at h4
  have h4' : (tablePool true).selectById db.nextId
      ⟨some (rows ++ [db.newRow s n1 c1]), db.nextId + 1, db.clock⟩ =
      (.ok (db.newRow s n1 c1 :: []),
        ⟨some (rows ++ [db.newRow s n1 c1]), db.nextId + 1, db.clock⟩) := by
    rw [h4]; simp [DB.newRow]
  simp [interleave, CreateTask.step, falsy_str, hs, hn1, hc1, hn2, hc2, Sys.exec, h1, h2, h3,
    h4', createFailed, Sys.print]

/-! ## What a request can do to the table -/

theorem faultyOp_snd {α : Type} (op : σ → Except Err α × σ) (st : σ × List (Option Err)) :
    (faultyOp op st).2.1 = st.1 ∨ (faultyOp op st).2.1 = (op st.1).2 := by
  obtain ⟨s, fs⟩ := st
  cases fs with
  | nil => exact Or.inr rfl
  | cons x rest =>
    cases x with
    | none => exact Or.inr rfl
    | some e => exact Or.inl rfl

theorem faultyOp_ok {α : Type} (op : σ → Except Err α × σ) (st st1 : σ × List (Option Err))
    (a : α) (h : faultyOp op st = (.ok a, st1)) : (op st.1).1 = .ok a := by
  obtain ⟨s, fs⟩ := st
  cases fs with
  | nil => simpa [faultyOp] using (congrArg Prod.fst h)
  | cons x rest =>
    cases x with
    | none => simpa [faultyOp] using (congrArg Prod.fst h)
    | some e => simp [faultyOp] at h

theorem select_snd (p : Row → Bool) (db : DB) : (db.select p).2 = db := by
  cases ht : db.table <;> simp [DB.select, ht]

theorem select_empty (p : Row → Bool) (db : DB) (h : (db.select p).1 = .ok []) (rows : List Row)
    (ht : db.table = some rows) : ∀ r ∈ rows, p r = false := by
  have hfil : rows.filter p = [] := by simpa [DB.select, ht] using h
  intro r hr
  have := List.filter_eq_nil_iff.mp hfil r hr
  simpa using this

theorem insert_snd (unique : Bool) (a b c : Field) (db : DB) :
    (DB.insert unique a b c db).2 = db ∨
    ∃ rows s n c1, a = .str s ∧ db.table = some rows ∧
      (DB.insert unique a b c db).2 =
        ⟨some (rows ++ [db.newRow s n c1]), db.nextId + 1, db.clock⟩ := by
  cases ht : db.table with
  | none => exact Or.inl (by simp [DB.insert, ht])
  | some rows =>
    cases a with
    | undefined => exact Or.inl (by simp [DB.insert, ht])
    | str s =>
      cases b with
      | undefined => exact Or.inl (by simp [DB.insert, ht])
      | str n =>
        cases c with
        | undefined => exact Or.inl (by simp [DB.insert, ht])
        | str c1 =>
          by_cases hd : (unique && rows.any (fun r => r.student_id == s)) = true
          · exact Or.inl (by simp only [DB.insert, ht, hd, if_true])
          · refine Or.inr ⟨rows, s, n, c1, rfl, rfl, ?_⟩
            simp only [DB.insert, ht, hd]
            simp

/-- On the table pool with faults, a request either leaves the database as it was or adds one row
whose `student_id` no row of the table had. -/
theorem createStudent_table (unique : Bool) (body : ReqBody)
    (sys : Sys (DB × List (Option Err))) :
    (createStudent (tablePool unique).faulty body sys).2.store.1 = sys.store.1 ∨
    ∃ rows s n c, sys.store.1.table = some rows ∧ (∀ r ∈ rows, r.student_id ≠ s) ∧
      (createStudent (tablePool unique).faulty body sys).2.store.1 =
        ⟨some (rows ++ [sys.store.1.newRow s n c]), sys.store.1.nextId + 1,
          sys.store.1.clock⟩ := by
  have hsel : ∀ (a : Field) (st : DB × List (Option Err)),
      (((tablePool unique).faulty).selectByStudentId a st).2.1 = st.1 := by
    intro a st
    rcases faultyOp_snd ((tablePool unique).selectByStudentId a) st with h | h
    · exact h
    · rw [show ((tablePool unique).faulty).selectByStudentId a st =
        faultyOp ((tablePool unique).selectByStudentId a) st from rfl, h]
      cases a <;> exact select_snd _ _
  have hid : ∀ (i : Nat) (st : DB × List (Option Err)),
      (((tablePool unique).faulty).selectById i st).2.1 = st.1 := by
    intro i st
    rcases faultyOp_snd ((tablePool unique).selectById i) st with h | h
    · exact h
    · rw [show ((tablePool unique).faulty).selectById i st =
        faultyOp ((tablePool unique).selectById i) st from rfl, h]
      exact select_snd _ _
  cases hv : body.valid with
  | false => exact Or.inl (by rw [createStudent_invalid _ _ _ hv])
  | true =>
    rcases op_cases (((tablePool unique).faulty).selectByStudentId body.studentID) sys.store
      with ⟨ex, s1, h1⟩ | ⟨e, s1, h1⟩
    · have hs1 : s1.1 = sys.store.1 := by
        have := hsel body.studentID sys.store
        rwa [h1] at this
      cases ex with
      | cons r rs =>
        rw [createStudent_conflict _ _ _ hv r rs s1 h1]
        exact Or.inl hs1
      | nil =>
        have hins := insert_snd unique body.studentID body.studentName body.course s1.1
        have hfa := faultyOp_snd
          ((tablePool unique).insertStudent body.studentID body.studentName body.course) s1
        have hstore : ∀ s2 : DB × List (Option Err),
            s2 = (((tablePool unique).faulty).insertStudent body.studentID body.studentName
              body.course s1).2 →
            s2.1 = sys.store.1 ∨
            ∃ rows s n c, sys.store.1.table = some rows ∧ (∀ r ∈ rows, r.student_id ≠ s) ∧
              s2.1 = ⟨some (rows ++ [sys.store.1.newRow s n c]), sys.store.1.nextId + 1,
                sys.store.1.clock⟩ := by
          intro s2 hs2
          subst hs2
          rcases hfa with h | h
          · exact Or.inl (h.trans hs1)
          · rcases hins with h' | ⟨rows, s, n, c, ha, ht, h'⟩
            · exact Or.inl ((h.trans h').trans hs1)
            · refine Or.inr ⟨rows, s, n, c, hs1 ▸ ht, ?_, ?_⟩
              · have hok := faultyOp_ok _ _ _ _ h1
                rw [ha] at hok
                have := select_empty _ _ hok rows (hs1 ▸ ht)
                intro r hr
                simpa using this r hr
              · rw [← hs1]
                exact h.trans h'
        rcases op_cases (((tablePool unique).faulty).insertStudent body.studentID
          body.studentName body.course) s1 with ⟨i, s2, h2⟩ | ⟨e, s2, h2⟩
        · have hs2 := hstore s2 (by rw [h2])
          rcases op_cases (((tablePool unique).faulty).selectById i) s2
            with ⟨nw, s3, h3⟩ | ⟨e, s3, h3⟩
          · have hs3 : s3.1 = s2.1 := by
              have := hid i s2
              rwa [h3] at this
            cases nw with
            | nil =>
              rw [createStudent_reread_empty _ _ _ hv i s1 s2 s3 h1 h2 h3]
              simpa [hs3] using hs2
            | cons r rs =>
              rw [createStudent_created _ _ _ hv i r rs s1 s2 s3 h1 h2 h3]
              simpa [hs3] using hs2
          · have hs3 : s3.1 = s2.1 := by
              have := hid i s2
              rwa [h3] at this
            rw [createStudent_reread_error _ _ _ hv e i s1 s2 s3 h1 h2 h3]
            simpa [hs3] using hs2
        · have hs2 := hstore s2 (by rw [h2])
          rw [createStudent_insert_error _ _ _ hv e s1 s2 h1 h2]
          exact hs2
    · have hs1 : s1.1 = sys.store.1 := by
        have := hsel body.studentID sys.store
        rwa [h1] at this
      rw [createStudent_check_error _ _ _ hv e s1 h1]
      exact Or.inl hs1

theorem listStudents_table (unique : Bool) (sys : Sys (DB × List (Option Err))) :
    (listStudents (tablePool unique).faulty sys).2.store.1 = sys.store.1 := by
  have hall : (((tablePool unique).faulty).selectAll sys.store).2.1 = sys.store.1 := by
    rcases faultyOp_snd (tablePool unique).selectAll sys.store with h | h
    · exact h
    · rw [show ((tablePool unique).faulty).selectAll sys.store =
        faultyOp (tablePool unique).selectAll sys.store from rfl, h]
      exact select_snd _ _
  rcases op_cases ((tablePool unique).faulty).selectAll sys.store with
    ⟨rows, s1, h⟩ | ⟨e, s1, h⟩
  · rw [listStudents_ok _ _ _ _ h]
    rwa [h] at hall
  · rw [listStudents_error _ _ _ _ h]
    rwa [h] at hall

/-- A property of the database kept by every insert of a row with a new `student_id` is kept by
every sequence of requests handled one at a time. -/
theorem handleAll_table (unique : Bool) (Inv : DB → Prop)
    (hadd : ∀ (db : DB) (rows : List Row) (s n c : String), Inv db → db.table = some rows →
      (∀ r ∈ rows, r.student_id ≠ s) →
      Inv ⟨some (rows ++ [db.newRow s n c]), db.nextId + 1, db.clock⟩)
    (reqs : List Request) (sys : Sys (DB × List (Option Err))) (h : Inv sys.store.1) :
    Inv (handleAll (tablePool unique).faulty reqs sys).2.store.1 := by
  induction reqs generalizing sys with
  | nil => simpa [handleAll] using h
  | cons req rest ih =>
    have hstep : Inv (handle (tablePool unique).faulty req sys).2.store.1 := by
      cases req with
      | list =>
        simp only [handle]
        rw [listStudents_table]
        exact h
      | create body =>
        simp only [handle]
        rcases createStudent_table unique body sys with h' | ⟨rows, s, n, c, ht, hf, h'⟩
        · rw [h']; exact h
        · rw [h']; exact hadd _ rows s n c h ht hf
    have := ih (handle (tablePool unique).faulty req sys).2 hstep
    simpa [handleAll] using this

theorem uniqueIds_add (db : DB) (rows : List Row) (s n c : String) (h : db.UniqueIds)
    (ht : db.table = some rows) (hf : ∀ r ∈ rows, r.student_id ≠ s) :
    DB.UniqueIds ⟨some (rows ++ [db.newRow s n c]), db.nextId + 1, db.clock⟩ := by
  intro rows' hrows'
  simp only [Option.some.injEq] at hrows'
  subst hrows'
  have hnd := h rows ht
  simp only [List.map_append, List.map_cons, List.map_nil, DB.newRow]
  rw [List.nodup_append]
  refine ⟨hnd, List.nodup_singleton _, ?_⟩
  intro x hx hx'
  simp only [List.mem_singleton] at hx'
  subst hx'
  obtain ⟨r, hr, hrs⟩ := List.mem_map.mp hx
  exact hf r hr hrs

theorem wf_add (db : DB) (rows : List Row) (s n c : String) (h : db.WF)
    (ht : db.table = some rows) :
    DB.WF ⟨some (rows ++ [db.newRow s n c]), db.nextId + 1, db.clock⟩ := by
  intro rows' hrows' r hr
  simp only [Option.some.injEq] at hrows'
  subst hrows'
  rcases List.mem_append.mp hr with hr | hr
  · exact Nat.lt_succ_of_lt (h rows ht r hr)
  · simp only [List.mem_singleton] at hr
    subst hr
    simp [DB.newRow]

/-- The counter stays above every `id` under every sequence of requests, with or without
faults: the well-formedness assumed of a database is kept by the program. -/
theorem handleAll_wf (unique : Bool) (reqs : List Request)
    (sys : Sys (DB × List (Option Err))) (h : sys.store.1.WF) :
    (handleAll (tablePool unique).faulty reqs sys).2.store.1.WF :=
  handleAll_table unique DB.WF (fun db rows s n c hi ht _ => wf_add db rows s n c hi ht)
    reqs sys h

end Lemmas

/-! ## Create and list -/

/-- C1: when one of `studentID`, `studentName`, `course` is absent or the empty string, the
create handler answers 400 with an error body and leaves the whole system as it was: no query
is sent (the trace is unchanged) and the store state is unchanged.  The same holds for the
handler seen step by step: it finishes in its first step. -/
theorem createStudent_missing_field (pool : Pool σ) (body : ReqBody) (sys : Sys σ)
    (h : body.studentID = .undefined ∨ body.studentID = .str "" ∨
         body.studentName = .undefined ∨ body.studentName = .str "" ∨
         body.course = .undefined ∨ body.course = .str "") :
    createStudent pool body sys =
      (⟨400, .error "Missing required fields: studentID, studentName, course"⟩, sys) ∧
    CreateTask.step pool (.start body) sys =
      (.done ⟨400, .error "Missing required fields: studentID, studentName, course"⟩, sys) := by
  have hc : (body.studentID.falsy || body.studentName.falsy || body.course.falsy) = true := by
    rcases h with h | h | h | h | h | h <;> simp [h, Field.falsy]
  constructor
  · simp [createStudent, hc, missingFields]
  · simp [CreateTask.step, hc, missingFields]

theorem createStudent_missing_field_witness :
    createStudent (tablePool true) ⟨.str "S1", .str "", .str "CS"⟩ ⟨⟨some [], 1, 0⟩, [], []⟩ =
      (⟨400, .error "Missing required fields: studentID, studentName, course"⟩,
        ⟨⟨some [], 1, 0⟩, [], []⟩) ∧
    CreateTask.step (tablePool true) (.start ⟨.str "S1", .str "", .str "CS"⟩)
        ⟨⟨some [], 1, 0⟩, [], []⟩ =
      (.done ⟨400, .error "Missing required fields: studentID, studentName, course"⟩,
        ⟨⟨some [], 1, 0⟩, [], []⟩) :=
  createStudent_missing_field (tablePool true) ⟨.str "S1", .str "", .str "CS"⟩
    ⟨⟨some [], 1, 0⟩, [], []⟩ (Or.inr (Or.inr (Or.inr (Or.inl rfl))))

/-- C2: on an existing table that holds no row with `student_id = s` (and whose ids are below
the counter), two valid requests `(s, n1, c1)` and `(s, n2, c2)` handled one after the other,
all queries being answered by the table: the first is answered 201 with student fields
`(s, n1, c1)`, the second 409 with message "Student already exists" and the fields
`(s, n1, c1)` of the stored row, not `n2`, `c2`; the second leaves the database as the first
left it, with one row for `s`. -/
theorem createStudent_twice (db : DB) (rows : List Row) (tr : List Event) (con : List Console)
    (s n1 c1 n2 c2 : String)
    (hs : s ≠ "") (hn1 : n1 ≠ "") (hc1 : c1 ≠ "") (hn2 : n2 ≠ "") (hc2 : c2 ≠ "")
    (ht : db.table = some rows) (hwf : db.WF) (hf : ∀ r ∈ rows, r.student_id ≠ s) :
    (createStudent (tablePool true) ⟨.str s, .str n1, .str c1⟩ ⟨db, tr, con⟩).1 =
      ⟨201, .student "Student created successfully" ⟨s, n1, c1, db.clock⟩⟩ ∧
    (createStudent (tablePool true) ⟨.str s, .str n2, .str c2⟩
      (createStudent (tablePool true) ⟨.str s, .str n1, .str c1⟩ ⟨db, tr, con⟩).2).1 =
      ⟨409, .student "Student already exists" ⟨s, n1, c1, db.clock⟩⟩ ∧
    (createStudent (tablePool true) ⟨.str s, .str n2, .str c2⟩
      (createStudent (tablePool true) ⟨.str s, .str n1, .str c1⟩ ⟨db, tr, con⟩).2).2.store =
      (createStudent (tablePool true) ⟨.str s, .str n1, .str c1⟩ ⟨db, tr, con⟩).2.store ∧
    (createStudent (tablePool true) ⟨.str s, .str n2, .str c2⟩
      (createStudent (tablePool true) ⟨.str s, .str n1, .str c1⟩ ⟨db, tr, con⟩).2).2.store.table =
      some (rows ++ [⟨db.nextId, s, n1, c1, db.clock⟩]) := by
  have h1 := create_fresh true db rows tr con s n1 c1 hs hn1 hc1 ht hwf hf
  have hfil : (rows ++ [db.newRow s n1 c1]).filter (fun r => r.student_id == s) =
      db.newRow s n1 c1 :: [] := by
    rw [List.filter_append, filter_fresh rows s hf]
    simp [DB.newRow]
  have h2 := create_existing true ⟨some (rows ++ [db.newRow s n1 c1]), db.nextId + 1, db.clock⟩
    (rows ++ [db.newRow s n1 c1])
    (tr ++ [.query (.selectByStudentId (.str s)) true,
            .query (.insertStudent (.str s) (.str n1) (.str c1)) true,
            .query (.selectById db.nextId) true]) con s n2 c2 hs hn2 hc2 rfl _ _ hfil
  rw [h1]
  simp only [h2]
  simp [created, conflict, Row.toStudent, DB.newRow]

theorem createStudent_twice_witness :
    (createStudent (tablePool true) ⟨.str "S1", .str "Ada", .str "CS"⟩
      ⟨⟨some [], 1, 7⟩, [], []⟩).1 =
      ⟨201, .student "Student created successfully" ⟨"S1", "Ada", "CS", 7⟩⟩ ∧
    (createStudent (tablePool true) ⟨.str "S1", .str "Grace", .str "EE"⟩
      (createStudent (tablePool true) ⟨.str "S1", .str "Ada", .str "CS"⟩
        ⟨⟨some [], 1, 7⟩, [], []⟩).2).1 =
      ⟨409, .student "Student already exists" ⟨"S1", "Ada", "CS", 7⟩⟩ ∧
    (createStudent (tablePool true) ⟨.str "S1", .str "Grace", .str "EE"⟩
      (createStudent (tablePool true) ⟨.str "S1", .str "Ada", .str "CS"⟩
        ⟨⟨some [], 1, 7⟩, [], []⟩).2).2.store =
      (createStudent (tablePool true) ⟨.str "S1", .str "Ada", .str "CS"⟩
        ⟨⟨some [], 1, 7⟩, [], []⟩).2.store ∧
    (createStudent (tablePool true) ⟨.str "S1", .str "Grace", .str "EE"⟩
      (createStudent (tablePool true) ⟨.str "S1", .str "Ada", .str "CS"⟩
        ⟨⟨some [], 1, 7⟩, [], []⟩).2).2.store.table =
      some ([] ++ [⟨1, "S1", "Ada", "CS", 7⟩]) :=
  createStudent_twice ⟨some [], 1, 7⟩ [] [] [] "S1" "Ada" "CS" "Grace" "EE"
    (by decide) (by decide) (by decide) (by decide) (by decide) rfl
    (by intro rows h r hr; cases h; cases hr) (by intro r hr; cases hr)

/-- C4: on an existing table that holds no row with `student_id = s` (and whose ids are below
the counter), after a valid create of `(s, n, c)` has answered 201, the list handler answers 200 with the rows held before, unchanged and in
their order, followed by one new row with `student_id = s`, `student_name = n`, `course = c`;
that row is the only listed row with `student_id = s`. -/
theorem createStudent_then_listStudents (db : DB) (rows : List Row) (tr : List Event)
    (con : List Console) (s n c : String) (hs : s ≠ "") (hn : n ≠ "") (hc : c ≠ "")
    (ht : db.table = some rows) (hwf : db.WF) (hf : ∀ r ∈ rows, r.student_id ≠ s) :
    (createStudent (tablePool true) ⟨.str s, .str n, .str c⟩ ⟨db, tr, con⟩).1.status = 201 ∧
    (listStudents (tablePool true)
      (createStudent (tablePool true) ⟨.str s, .str n, .str c⟩ ⟨db, tr, con⟩).2).1 =
      ⟨200, .rows (rows ++ [⟨db.nextId, s, n, c, db.clock⟩])⟩ ∧
    (rows ++ [Row.mk db.nextId s n c db.clock]).filter (fun r => r.student_id == s) =
      [Row.mk db.nextId s n c db.clock] := by
  have h1 := create_fresh true db rows tr con s n c hs hn hc ht hwf hf
  rw [h1]
  refine ⟨rfl, ?_, ?_⟩
  · rw [listStudents_ok (tablePool true) _ (rows ++ [db.newRow s n c]) _
      (table_all true _ _ rfl)]
    simp [DB.newRow]
  · rw [List.filter_append, filter_fresh rows s hf]
    simp

theorem createStudent_then_listStudents_witness :
    (createStudent (tablePool true) ⟨.str "S2", .str "Alan", .str "Math"⟩
      ⟨⟨some [⟨1, "S1", "Ada", "CS", 7⟩], 2, 9⟩, [], []⟩).1.status = 201 ∧
    (listStudents (tablePool true)
      (createStudent (tablePool true) ⟨.str "S2", .str "Alan", .str "Math"⟩
        ⟨⟨some [⟨1, "S1", "Ada", "CS", 7⟩], 2, 9⟩, [], []⟩).2).1 =
      ⟨200, .rows ([⟨1, "S1", "Ada", "CS", 7⟩] ++ [⟨2, "S2", "Alan", "Math", 9⟩])⟩ ∧
    ([Row.mk 1 "S1" "Ada" "CS" 7] ++ [Row.mk 2 "S2" "Alan" "Math" 9]).filter
      (fun r => r.student_id == "S2") = [Row.mk 2 "S2" "Alan" "Math" 9] :=
  createStudent_then_listStudents ⟨some [⟨1, "S1", "Ada", "CS", 7⟩], 2, 9⟩
    [⟨1, "S1", "Ada", "CS", 7⟩] [] [] "S2" "Alan" "Math" (by decide) (by decide) (by decide) rfl
    (by intro rows h r hr; cases h; simp at hr; subst hr; decide)
    (by intro r hr; simp at hr; subst hr; decide)

/-- C8: the list handler sends the one statement `SELECT * FROM students` and nothing else.  On a
database whose table exists it answers 200 with exactly the rows of the table, so `[]` when the
table is empty; whatever the database, it leaves it unchanged.  For every pool, when the query
resolves with `students` the answer is 200 with `students`. -/
theorem listStudents_full_read (unique : Bool) (db : DB) (tr : List Event) (con : List Console) :
    (∀ rows, db.table = some rows →
      listStudents (tablePool unique) ⟨db, tr, con⟩ =
        (⟨200, .rows rows⟩, ⟨db, tr ++ [.query .selectAll true], con⟩)) ∧
    (db.table = some [] →
      (listStudents (tablePool unique) ⟨db, tr, con⟩).1 = ⟨200, .rows []⟩) ∧
    (listStudents (tablePool unique) ⟨db, tr, con⟩).2.store = db ∧
    (∀ (pool : Pool σ) (sys : Sys σ) (students : List Row) (s1 : σ),
      pool.selectAll sys.store = (.ok students, s1) →
      (listStudents pool sys).1 = ⟨200, .rows students⟩ ∧
      (listStudents pool sys).2.trace = sys.trace ++ [.query .selectAll true]) := by
  refine ⟨?_, ?_, ?_, ?_⟩
  · intro rows ht
    exact listStudents_ok (tablePool unique) ⟨db, tr, con⟩ rows db (table_all unique db rows ht)
  · intro ht
    rw [listStudents_ok (tablePool unique) ⟨db, tr, con⟩ [] db (table_all unique db [] ht)]
  · cases ht : db.table with
    | none =>
      have h : (tablePool unique).selectAll (Sys.mk db tr con).store = (.error noSuchTable, db) := by
        simp [tablePool, DB.select, ht]
      rw [listStudents_error _ _ _ _ h]
    | some rows =>
      rw [listStudents_ok (tablePool unique) ⟨db, tr, con⟩ rows db (table_all unique db rows ht)]
  · intro pool sys students s1 h
    rw [listStudents_ok pool sys students s1 h]
    exact ⟨rfl, rfl⟩

theorem listStudents_full_read_witness :
    listStudents (tablePool true) ⟨⟨some [⟨1, "S1", "Ada", "CS", 7⟩], 2, 9⟩, [], []⟩ =
      (⟨200, .rows [⟨1, "S1", "Ada", "CS", 7⟩]⟩,
        ⟨⟨some [⟨1, "S1", "Ada", "CS", 7⟩], 2, 9⟩, [] ++ [.query .selectAll true], []⟩) :=
  (listStudents_full_read (σ := DB) true ⟨some [⟨1, "S1", "Ada", "CS", 7⟩], 2, 9⟩ [] []).1
    [⟨1, "S1", "Ada", "CS", 7⟩] rfl

/-- C6: the response to a request never depends on what the errors thrown by the store
contain.  Replacing every error the pool throws (at the existence check, the insert, the re-read
or the list query) by any other error, through any `f`, leaves the response of the create
handler and of the list handler unchanged, as well as the store and the events; and whenever a
query of the run threw, the response is status 500 with body exactly
`{error: "Internal server error"}`. -/
theorem store_error_not_leaked (pool : Pool σ) (f : Err → Err) (body : ReqBody) (sys : Sys σ) :
    ((createStudent (pool.mapErr f) body sys).1 = (createStudent pool body sys).1 ∧
     (createStudent (pool.mapErr f) body sys).2.store = (createStudent pool body sys).2.store ∧
     (createStudent (pool.mapErr f) body sys).2.trace =
       (createStudent pool body sys).2.trace) ∧
    ((listStudents (pool.mapErr f) sys).1 = (listStudents pool sys).1 ∧
     (listStudents (pool.mapErr f) sys).2.store = (listStudents pool sys).2.store ∧
     (listStudents (pool.mapErr f) sys).2.trace = (listStudents pool sys).2.trace) ∧
    (∀ ev q, (createStudent pool body sys).2.trace = sys.trace ++ ev →
      Event.query q false ∈ ev →
      (createStudent pool body sys).1 = ⟨500, .error "Internal server error"⟩) ∧
    (∀ ev q, (listStudents pool sys).2.trace = sys.trace ++ ev →
      Event.query q false ∈ ev →
      (listStudents pool sys).1 = ⟨500, .error "Internal server error"⟩) :=
  ⟨createStudent_mapErr pool f body sys, listStudents_mapErr pool f sys,
    fun ev q htr hq => createStudent_failed_query pool body sys ev q htr hq,
    fun ev q htr hq => listStudents_failed_query pool sys ev q htr hq⟩

theorem store_error_not_leaked_witness :
    (createStudent (tablePool true).faulty ⟨.str "S1", .str "Ada", .str "CS"⟩
      ⟨(⟨some [], 1, 7⟩, [none, some ⟨"ECONNRESET", "read ECONNRESET"⟩]), [], []⟩).1 =
      ⟨500, .error "Internal server error"⟩ ∧
    (createStudent ((tablePool true).faulty.mapErr (fun _ => ⟨"PROTOCOL", "lost"⟩))
      ⟨.str "S1", .str "Ada", .str "CS"⟩
      ⟨(⟨some [], 1, 7⟩, [none, some ⟨"ECONNRESET", "read ECONNRESET"⟩]), [], []⟩).1 =
      ⟨500, .error "Internal server error"⟩ := by
  have h := store_error_not_leaked (tablePool true).faulty (fun _ => ⟨"PROTOCOL", "lost"⟩)
    ⟨.str "S1", .str "Ada", .str "CS"⟩
    ⟨(⟨some [], 1, 7⟩, [none, some ⟨"ECONNRESET", "read ECONNRESET"⟩]), [], []⟩
  have h500 := h.2.2.1
    [.query (.selectByStudentId (.str "S1")) true,
      .query (.insertStudent (.str "S1") (.str "Ada") (.str "CS")) false]
    (.insertStudent (.str "S1") (.str "Ada") (.str "CS")) (by decide) (by decide)
  exact ⟨h500, h.1.1.trans h500⟩

/-- C7: a valid request whose existence check finds no row and whose insert is then rejected by
the store is answered 500 with the generic error, not 409.  And on an existing table without `s`
(whose ids are below the counter), two valid
requests for `s` in flight together, scheduled check, check, insert, insert, re-read: the first
is answered 201, the second 500 with the generic error, and the table ends with exactly one row
for `s`, that of the first. -/
theorem createStudent_race :
    (∀ (τ : Type) (pool : Pool τ) (body : ReqBody) (sys : Sys τ) (e : Err) (s1 s2 : τ),
      body.valid = true →
      pool.selectByStudentId body.studentID sys.store = (.ok [], s1) →
      pool.insertStudent body.studentID body.studentName body.course s1 = (.error e, s2) →
      (createStudent pool body sys).1 = ⟨500, .error "Internal server error"⟩ ∧
      (createStudent pool body sys).1.status ≠ 409) ∧
    (∀ (db : DB) (rows : List Row) (tr : List Event) (con : List Console)
      (s n1 c1 n2 c2 : String),
      s ≠ "" → n1 ≠ "" → c1 ≠ "" → n2 ≠ "" → c2 ≠ "" →
      db.table = some rows → db.WF → (∀ r ∈ rows, r.student_id ≠ s) →
      ∃ schedule final,
        interleave (tablePool true) schedule
          (.start ⟨.str s, .str n1, .str c1⟩, .start ⟨.str s, .str n2, .str c2⟩)
          ⟨db, tr, con⟩ =
          ((.done ⟨201, .student "Student created successfully" ⟨s, n1, c1, db.clock⟩⟩,
            .done ⟨500, .error "Internal server error"⟩), final) ∧
        final.store.table = some (rows ++ [Row.mk db.nextId s n1 c1 db.clock]) ∧
        (rows ++ [Row.mk db.nextId s n1 c1 db.clock]).filter (fun r => r.student_id == s) =
          [Row.mk db.nextId s n1 c1 db.clock]) := by
  constructor
  · intro τ pool body sys e s1 s2 hv h1 h2
    rw [createStudent_insert_error pool body sys hv e s1 s2 h1 h2]
    exact ⟨rfl, by simp [internalError]⟩
  · intro db rows tr con s n1 c1 n2 c2 hs hn1 hc1 hn2 hc2 ht hwf hf
    refine ⟨[true, false, true, false, true, true, false], _,
      interleave_race db rows tr con s n1 c1 n2 c2 hs hn1 hc1 hn2 hc2 ht hwf hf, rfl, ?_⟩
    rw [List.filter_append, filter_fresh rows s hf]
    simp

theorem createStudent_race_witness :
    ((createStudent (tablePool true).faulty ⟨.str "S1", .str "Grace", .str "EE"⟩
        ⟨(⟨some [], 1, 7⟩, [none, some dupEntry]), [], []⟩).1 =
        ⟨500, .error "Internal server error"⟩ ∧
     (createStudent (tablePool true).faulty ⟨.str "S1", .str "Grace", .str "EE"⟩
        ⟨(⟨some [], 1, 7⟩, [none, some dupEntry]), [], []⟩).1.status ≠ 409) ∧
    (∃ schedule final,
      interleave (tablePool true) schedule
        (.start ⟨.str "S1", .str "Ada", .str "CS"⟩, .start ⟨.str "S1", .str "Grace", .str "EE"⟩)
        ⟨⟨some [], 1, 7⟩, [], []⟩ =
        ((.done ⟨201, .student "Student created successfully" ⟨"S1", "Ada", "CS", 7⟩⟩,
          .done ⟨500, .error "Internal server error"⟩), final) ∧
      final.store.table = some ([] ++ [Row.mk 1 "S1" "Ada" "CS" 7]) ∧
      ([] ++ [Row.mk 1 "S1" "Ada" "CS" 7]).filter (fun r => r.student_id == "S1") =
        [Row.mk 1 "S1" "Ada" "CS" 7]) :=
  ⟨createStudent_race.1 _ (tablePool true).faulty ⟨.str "S1", .str "Grace", .str "EE"⟩
      ⟨(⟨some [], 1, 7⟩, [none, some dupEntry]), [], []⟩ dupEntry
      (⟨some [], 1, 7⟩, [some dupEntry]) (⟨some [], 1, 7⟩, []) (by decide) rfl rfl,
    createStudent_race.2 ⟨some [], 1, 7⟩ [] [] [] "S1" "Ada" "CS" "Grace" "EE"
      (by decide) (by decide) (by decide) (by decide) (by decide) rfl
      (by intro rows h r hr; cases h; cases hr) (by intro r hr; cases hr)⟩

/-- C3: starting from a table in which no two rows share a `student_id`, after any finite
sequence of create and list requests handled one at a time, whatever queries fail on the way,
no two rows share a `student_id`.  This holds with the `UNIQUE` constraint enforced
(`unique = true`) and also with the constraint left out of the table (`unique = false`), where
only the existence check of the handler stands in the way of a second row. -/
theorem uniqueness_invariant (unique : Bool) (reqs : List Request)
    (sys : Sys (DB × List (Option Err))) (h : sys.store.1.UniqueIds) :
    (handleAll (tablePool unique).faulty reqs sys).2.store.1.UniqueIds :=
  handleAll_table unique DB.UniqueIds uniqueIds_add reqs sys h

theorem uniqueness_invariant_witness :
    (handleAll (tablePool false).faulty
      [.create ⟨.str "S1", .str "Ada", .str "CS"⟩, .create ⟨.str "S1", .str "Grace", .str "EE"⟩,
        .list, .create ⟨.str "S2", .str "Alan", .str "Math"⟩]
      ⟨(⟨some [], 1, 7⟩, []), [], []⟩).2.store.1.UniqueIds :=
  uniqueness_invariant false _ ⟨(⟨some [], 1, 7⟩, []), [], []⟩
    (by intro rows h; cases h; exact List.nodup_nil)

/-! ## Start-up protocol -/

/-- C5: when every attempt to obtain a connection is rejected, `initializeDatabase` makes exactly
five attempts, each followed by a 5000 ms timer, never sends the DDL statement of `createTable`,
and resolves to `false` (it is a total function: it neither throws nor stops the process). -/
theorem initializeDatabase_unreachable (pool : Pool σ) (sys : Sys σ)
    (hdown : ∀ s, ∃ e s1, pool.getConnection s = (.error e, s1)) :
    (initializeDatabase pool sys).1 = false ∧
    (initializeDatabase pool sys).2.trace = sys.trace ++
      [.getConnection false, .wait 5000, .getConnection false, .wait 5000,
       .getConnection false, .wait 5000, .getConnection false, .wait 5000,
       .getConnection false, .wait 5000] ∧
    attempts ((initializeDatabase pool sys).2.trace.drop sys.trace.length) = 5 ∧
    tableCalls ((initializeDatabase pool sys).2.trace.drop sys.trace.length) = 0 := by
  have h := initLoop_down pool hdown 5 sys
  refine ⟨h.1, ?_, ?_, ?_⟩
  · simpa [initializeDatabase, failedRounds] using h.2
  · simp [initializeDatabase, h.2, failedRounds, attempts]
  · simp [initializeDatabase, h.2, failedRounds, tableCalls]

theorem initializeDatabase_unreachable_witness :
    (initializeDatabase downPool ⟨(), [], []⟩).1 = false ∧
    (initializeDatabase downPool ⟨(), [], []⟩).2.trace = [] ++
      [.getConnection false, .wait 5000, .getConnection false, .wait 5000,
       .getConnection false, .wait 5000, .getConnection false, .wait 5000,
       .getConnection false, .wait 5000] ∧
    attempts ((initializeDatabase downPool ⟨(), [], []⟩).2.trace.drop 0) = 5 ∧
    tableCalls ((initializeDatabase downPool ⟨(), [], []⟩).2.trace.drop 0) = 0 :=
  initializeDatabase_unreachable downPool ⟨(), [], []⟩ (fun s => ⟨_, s, rfl⟩)

/-- C9: for every pool, a run of `initializeDatabase` consists of `k ≤ 5` rejected connection
attempts, each followed at once by one 5000 ms timer, and then either nothing (`k = 5`) or one
accepted attempt, its release and a single DDL statement (`k < 5`).  So there are at most five
attempts and at most one `createTable` call, the number of timers equals the number of rejected
attempts `k` (five timers, 25000 ms, when all five attempts fail), and when attempt `k + 1` is the
first to succeed exactly `k` timers have run. -/
theorem initializeDatabase_bounded (pool : Pool σ) (sys : Sys σ) :
    ∃ k tail, k ≤ 5 ∧
      (initializeDatabase pool sys).2.trace = sys.trace ++ (failedRounds k ++ tail) ∧
      ((k = 5 ∧ tail = []) ∨
       (k < 5 ∧ ∃ ok, tail = [.getConnection true, .release, .query .createTable ok])) ∧
      attempts (failedRounds k ++ tail) ≤ 5 ∧
      (k < 5 ↔ attempts (failedRounds k ++ tail) = k + 1) ∧
      tableCalls (failedRounds k ++ tail) ≤ 1 ∧
      failedAttempts (failedRounds k ++ tail) = k ∧
      waits (failedRounds k ++ tail) = k ∧
      waited (failedRounds k ++ tail) = 5000 * k ∧
      (k = 5 → waits (failedRounds k ++ tail) = 5 ∧ waited (failedRounds k ++ tail) = 25000) := by
  obtain ⟨k, tail, hk, htr, hres⟩ := initLoop_trace pool 5 sys
  refine ⟨k, tail, hk, htr, ?_⟩
  rw [attempts_failedRounds, tableCalls_failedRounds, failedAttempts_failedRounds,
    waits_failedRounds, waited_failedRounds]
  rcases hres with ⟨h1, h2, _⟩ | ⟨h1, h2⟩
  · subst h1 h2
    simp [attempts, tableCalls, failedAttempts, waits, waited]
  · subst h2
    refine ⟨Or.inr ⟨h1, _, rfl⟩, ?_⟩
    simp [attempts, tableCalls, failedAttempts, waits, waited]
    omega

theorem initializeDatabase_bounded_witness :
    ∃ k tail, k ≤ 5 ∧
      (initializeDatabase (tablePool true).faulty
        ⟨(⟨none, 1, 0⟩, [some ⟨"ECONNREFUSED", "connect"⟩, some ⟨"ECONNREFUSED", "connect"⟩]),
          [], []⟩).2.trace = [] ++ (failedRounds k ++ tail) ∧
      ((k = 5 ∧ tail = []) ∨
       (k < 5 ∧ ∃ ok, tail = [.getConnection true, .release, .query .createTable ok])) ∧
      attempts (failedRounds k ++ tail) ≤ 5 ∧
      (k < 5 ↔ attempts (failedRounds k ++ tail) = k + 1) ∧
      tableCalls (failedRounds k ++ tail) ≤ 1 ∧
      failedAttempts (failedRounds k ++ tail) = k ∧
      waits (failedRounds k ++ tail) = k ∧
      waited (failedRounds k ++ tail) = 5000 * k ∧
      (k = 5 → waits (failedRounds k ++ tail) = 5 ∧ waited (failedRounds k ++ tail) = 25000) :=
  initializeDatabase_bounded (tablePool true).faulty
    ⟨(⟨none, 1, 0⟩, [some ⟨"ECONNREFUSED", "connect"⟩, some ⟨"ECONNREFUSED", "connect"⟩]),
      [], []⟩

/-- C10: `createTable` returns `false` exactly when the DDL statement throws (it never throws
itself).  In every run of `initializeDatabase`, a failed DDL statement is the last event: it
comes right after the accepted connection and its release, with no later attempt and no timer,
whatever number `k < 5` of attempts failed before, and the result is `false`.  The result is
`true` exactly when one of the at most five attempts was accepted and the DDL statement that
followed it succeeded. -/
theorem initializeDatabase_result (pool : Pool σ) (sys : Sys σ) :
    ((createTable pool sys).1 = false ↔ ∃ e s1, pool.createTable sys.store = (.error e, s1)) ∧
    ∃ ev, (initializeDatabase pool sys).2.trace = sys.trace ++ ev ∧
      attempts ev ≤ 5 ∧ tableCalls ev ≤ 1 ∧
      ((initializeDatabase pool sys).1 = true ↔
        (Event.getConnection true ∈ ev ∧ Event.query .createTable true ∈ ev)) ∧
      (Event.query .createTable false ∈ ev →
        (initializeDatabase pool sys).1 = false ∧
        ∃ k, k < 5 ∧
          ev = failedRounds k ++ [.getConnection true, .release, .query .createTable false]) := by
  constructor
  · rcases op_cases pool.createTable sys.store with ⟨a, s1, h⟩ | ⟨e, s1, h⟩
    · simp [createTable, exec_ok _ _ _ _ _ h, h]
    · simp [createTable, exec_error _ _ _ _ _ h, h]
  · obtain ⟨k, tail, hk, htr, hres⟩ := initLoop_trace pool 5 sys
    refine ⟨failedRounds k ++ tail, htr, ?_⟩
    rw [attempts_failedRounds, tableCalls_failedRounds]
    have hconn : Event.getConnection true ∉ failedRounds k := fun hm => by
      rcases mem_failedRounds k _ hm with h | h <;> simp at h
    have hq : ∀ b, Event.query .createTable b ∉ failedRounds k := fun b hm => by
      rcases mem_failedRounds k _ hm with h | h <;> simp at h
    rcases hres with ⟨h1, h2, h3⟩ | ⟨h1, h2⟩
    · subst h2
      simp only [initializeDatabase]
      simp [h3, attempts, tableCalls, hconn, hq, hk]
    · simp only [initializeDatabase]
      rw [h2]
      refine ⟨by simp [attempts]; omega, by simp [tableCalls], ?_, ?_⟩
      · simp [hconn, hq]
      · intro hm
        have hb : (initLoop pool 5 sys).1 = false := by
          simpa [hconn, hq] using hm
        exact ⟨hb, k, h1, by rw [hb]⟩

theorem initializeDatabase_result_witness :
    (initializeDatabase (tablePool true).faulty
      ⟨(⟨none, 1, 0⟩, [some ⟨"ECONNREFUSED", "connect"⟩, none, some ⟨"ER_DBACCESS", "denied"⟩]),
        [], []⟩).1 = false ∧
    (initializeDatabase (tablePool true).faulty
      ⟨(⟨none, 1, 0⟩, [some ⟨"ECONNREFUSED", "connect"⟩, none, some ⟨"ER_DBACCESS", "denied"⟩]),
        [], []⟩).2.trace =
      [.getConnection false, .wait 5000, .getConnection true, .release,
        .query .createTable false] := by
  obtain ⟨_, ev, htr, _, _, _, hfail⟩ := initializeDatabase_result (tablePool true).faulty
    ⟨(⟨none, 1, 0⟩, [some ⟨"ECONNREFUSED", "connect"⟩, none, some ⟨"ER_DBACCESS", "denied"⟩]),
      [], []⟩
  have hev : ev = [.getConnection false, .wait 5000, .getConnection true, .release,
      .query .createTable false] := by
    rw [List.nil_append] at htr
    rw [← htr]
    decide
  exact ⟨(hfail (by rw [hev]; decide)).1, by rw [htr, List.nil_append, hev]⟩

end StudentApp
